import Mathlib

/-!
Shallow embedding of the multi-tenant SaaS plugin subsystem
(`app/plugins/plugin.py`, `app/plugins/plugin_manager.py`,
`app/plugins/tenant_plugin.py`, `app/tenant/tenant.py`,
`app/tenant/schema_manager.py`, `app/tenant/middleware.py`,
`app/tenant/quota.py`).

Modelling conventions:
  - JSON config blobs are association lists `List (String × Int)`;
    their contents are opaque to all the code modelled here.
  - Python dictionaries are association lists with first-key-wins lookup;
    `dictSet` is dictionary assignment, deletion is modelled by filtering
    the key out (Python dict keys are unique, so this coincides with
    `del d[k]`).
  - The database session is modelled as explicit state: a committed row
    update replaces the matching row in the table list.  SQLAlchemy's
    identity map means the manager's in-memory `self.plugins` cache holds
    the same objects as the session, so a committed row mutation is
    mirrored into that cache (`commitPlugin`).
  - Dynamic import is a read-only environment mapping module names to
    modules; a module maps attribute names to Python values, which are
    either the Python `None` or a plugin entry-point class.  An absent
    module name models a failed import (ImportError).
  - An entry-point class is a function from its optional constructor
    argument (`Option Config`: `none` means called with no argument) to
    `Except String PluginInstance` (`error` models a raised exception).
-/

namespace SaaS

abbrev Config := List (String × Int)

/-- A Flask blueprint, reduced to the only field the modelled code reads:
its registration name. -/
structure Blueprint where
  name : String
deriving DecidableEq, Repr

/-- A constructed plugin instance: the config it was built with, whether it
has a `get_blueprint` attribute, and what `get_blueprint()` returns. -/
structure PluginInstance where
  config : Config
  has_get_blueprint : Bool
  blueprint : Option Blueprint
deriving DecidableEq, Repr

/-- An entry-point class: calling it with `none` models `cls()` (no
argument), with `some cfg` models `cls(cfg)`; `Except.error` models a
raised constructor exception. -/
structure PluginClass where
  construct : Option Config → Except String PluginInstance

/-- A Python value found at a module attribute: either the Python `None`
or an entry-point class. -/
inductive PyVal where
  | none
  | cls (c : PluginClass)

/-- A Python module: its attribute dictionary. -/
structure PyModule where
  attrs : List (String × PyVal)

/-- The import environment: importable module names.  A name missing here
makes `importlib.import_module` raise. -/
structure PyEnv where
  modules : List (String × PyModule)

/-- Python's `str.split(sep)` for a single-character separator, on the
character list: splits at every occurrence, keeping empty pieces, and
yields `[""]` for the empty string — exactly `str.split`'s semantics. -/
def splitCharList (sep : Char) : List Char → List (List Char)
  | [] => [[]]
  | c :: rest =>
    match splitCharList sep rest with
    | [] => [[]]
    | w :: ws => if c == sep then [] :: w :: ws else (c :: w) :: ws

/-- Python's `s.split(sep)` for a single-character separator. -/
def pySplit (s : String) (sep : Char) : List String :=
  (splitCharList sep s.data).map (fun l => String.mk l)

/-- Python's `sep in s` for a single character. -/
def pyContainsChar (s : String) (c : Char) : Bool :=
  s.data.contains c

/-- Boolean character-list prefix test. -/
def isPrefixChars : List Char → List Char → Bool
  | [], _ => true
  | _ :: _, [] => false
  | a :: as, b :: bs => a == b && isPrefixChars as bs

/-- Python's `s.startswith(pre)`. -/
def pyStartsWith (s pre : String) : Bool :=
  isPrefixChars pre.data s.data

/-- Row of the `plugins` table (`app/plugins/plugin.py`, class `Plugin`). -/
structure Plugin where
  id : Nat
  name : String
  slug : String
  version : String
  description : Option String
  author : Option String
  homepage : Option String
  entry_point : String
  config_schema : Config
  status : String
  is_system : Bool
  enabled_for_all : Bool
deriving DecidableEq, Repr

/-- `Plugin.module_path`: `entry_point.split(':')[0]` when a colon is
present, else the whole string. -/
def Plugin.module_path (p : Plugin) : String :=
  if pyContainsChar p.entry_point ':' then (pySplit p.entry_point ':').headD p.entry_point
  else p.entry_point

/-- `Plugin.module_attr`: `entry_point.split(':')[1]` when a colon is
present, else the literal `"plugin"`. -/
def Plugin.module_attr (p : Plugin) : String :=
  if pyContainsChar p.entry_point ':' then (pySplit p.entry_point ':').getD 1 "plugin"
  else "plugin"

/-- `Plugin.load`: imports `module_path`; on ImportError sets status to
`"error"`, commits, returns `None`.  If the module lacks `module_attr`,
sets status to `"error"`, commits, returns `None`.  Otherwise returns
`getattr(module, module_attr)` unchanged — which is `None` exactly when
the attribute is bound to the Python `None`.  The returned `Plugin` is
the (committed) state of the row after the call; the session commit
itself is modelled as always succeeding. -/
def Plugin.load (p : Plugin) (env : PyEnv) : Option PluginClass × Plugin :=
  match env.modules.lookup p.module_path with
  | Option.none => (Option.none, { p with status := "error" })
  | Option.some m =>
    match m.attrs.lookup p.module_attr with
    | Option.none => (Option.none, { p with status := "error" })
    | Option.some PyVal.none => (Option.none, p)
    | Option.some (PyVal.cls c) => (Option.some c, p)

/-- The value `getattr(module, module_attr)` would see, when both the
module and the attribute exist. -/
def moduleAttrVal (p : Plugin) (env : PyEnv) : Option PyVal :=
  match env.modules.lookup p.module_path with
  | Option.none => Option.none
  | Option.some m => m.attrs.lookup p.module_attr

/-- Row of the `tenant_plugins` table (`app/plugins/tenant_plugin.py`). -/
structure TenantPlugin where
  id : Nat
  tenant_id : Nat
  plugin_id : Nat
  enabled : Bool
  config : Config
deriving DecidableEq, Repr

/-- The relational tables the plugin subsystem reads and writes. -/
structure DB where
  plugins : List Plugin
  tenant_plugins : List TenantPlugin
deriving DecidableEq, Repr

/-- Python dictionary assignment `d[k] = v` on an association list. -/
def dictSet {α : Type} : List (String × α) → String → α → List (String × α)
  | [], k, v => [(k, v)]
  | (k2, v2) :: rest, k, v =>
    if k2 == k then (k, v) :: rest else (k2, v2) :: dictSet rest k v

/-- Committed in-place update of the (unique, by DB constraint) plugin row
with the given slug. -/
def putPlugin : List Plugin → String → Plugin → List Plugin
  | [], _, _ => []
  | q :: rest, slug, p => if q.slug == slug then p :: rest else q :: putPlugin rest slug p

/-- The `PluginManager` singleton's mutable state plus the state of its
collaborators: the database, the `self.plugins` row cache, the
`self.plugin_instances` instance cache, and `current_app.blueprints`
(as the list of registered blueprint names, in registration order). -/
structure ManagerState where
  db : DB
  plugins : List (String × Plugin)
  plugin_instances : List (String × PluginInstance)
  blueprints : List String
deriving DecidableEq, Repr

/-- Mirrors a committed mutation of a plugin row into both the table and
the manager's `self.plugins` cache (the identity map makes the cached
object the mutated row itself). -/
def commitPlugin (st : ManagerState) (slug : String) (p : Plugin) : ManagerState :=
  { st with db := { st.db with plugins := putPlugin st.db.plugins slug p },
            plugins := dictSet st.plugins slug p }

/-- Python truthiness of the `tenant_id` argument: `None` and `0` are
falsy (the source tests `if tenant_id`). -/
def truthyTid : Option Nat → Bool
  | Option.none => false
  | Option.some t => t != 0

/-- The instance-cache key: `f"{plugin_slug}:{tenant_id}" if tenant_id
else plugin_slug`. -/
def instanceKey (plugin_slug : String) (tid : Option Nat) : String :=
  if truthyTid tid then plugin_slug ++ ":" ++ toString (tid.getD 0) else plugin_slug

/-- `self.plugins.get(slug)` with the database fallback that also caches
the row (`get_plugin_instance`, first half). -/
def fetchPlugin (st : ManagerState) (slug : String) : Option (Plugin × ManagerState) :=
  match st.plugins.lookup slug with
  | Option.some p => Option.some (p, st)
  | Option.none =>
    match st.db.plugins.find? (fun p => p.slug == slug) with
    | Option.some p => Option.some (p, { st with plugins := dictSet st.plugins slug p })
    | Option.none => Option.none

/-- The `try: instance = plugin_class(config) ... except: return None`
tail of `get_plugin_instance`: construct, cache on success. -/
def finishConstruct (st : ManagerState) (key : String) (c : PluginClass) (cfg : Config) :
    Option PluginInstance × ManagerState :=
  match c.construct (Option.some cfg) with
  | Except.ok inst =>
    (Option.some inst, { st with plugin_instances := dictSet st.plugin_instances key inst })
  | Except.error _ => (Option.none, st)

/-- `PluginManager.get_plugin_instance(plugin_slug, tenant_id)`
(`plugin_manager.py` lines 295–346), faithfully: cached instance wins
before any status check; then plugin lookup (cache, then table); then the
status-active gate; `plugin.load()`; tenant config resolution (enabled
row's config, else empty config if `enabled_for_all`, else `None`);
finally construction with the config as the single argument. -/
def PluginManager.get_plugin_instance (st : ManagerState) (env : PyEnv)
    (plugin_slug : String) (tid : Option Nat) : Option PluginInstance × ManagerState :=
  let key := instanceKey plugin_slug tid
  match st.plugin_instances.lookup key with
  | Option.some inst => (Option.some inst, st)
  | Option.none =>
    match fetchPlugin st plugin_slug with
    | Option.none => (Option.none, st)
    | Option.some (p, st1) =>
      if p.status != "active" then (Option.none, st1)
      else
        match p.load env with
        | (Option.none, p2) => (Option.none, commitPlugin st1 plugin_slug p2)
        | (Option.some c, p2) =>
          let st2 := commitPlugin st1 plugin_slug p2
          if truthyTid tid then
            match st2.db.tenant_plugins.find?
                (fun tp => tp.tenant_id == tid.getD 0 && tp.plugin_id == p.id && tp.enabled) with
            | Option.some tp => finishConstruct st2 key c tp.config
            | Option.none =>
              if p.enabled_for_all then finishConstruct st2 key c []
              else (Option.none, st2)
          else finishConstruct st2 key c []

/-- The blueprint-registration step of `activate_plugin`: if the probe
instance has `get_blueprint` and it yields a blueprint, register it with
the web layer unless a blueprint of that name is already registered. -/
def registerBlueprintStep (st : ManagerState) (inst : PluginInstance) : ManagerState :=
  if inst.has_get_blueprint then
    match inst.blueprint with
    | Option.some bp =>
      if st.blueprints.contains bp.name then st
      else { st with blueprints := st.blueprints ++ [bp.name] }
    | Option.none => st
  else st

/-- `PluginManager.activate_plugin(plugin_slug)` (`plugin_manager.py`
lines 202–252): DB row lookup, `plugin.load()`, probe instance built by
`plugin_class()` — called with NO argument — blueprint registration
guarded by `blueprint.name not in current_app.blueprints`, then status
set to `"active"`, committed, refreshed (the read-after-write check
always passes against the committed state), and the row cached. -/
def PluginManager.activate_plugin (st : ManagerState) (env : PyEnv)
    (plugin_slug : String) : Bool × ManagerState :=
  match st.db.plugins.find? (fun p => p.slug == plugin_slug) with
  | Option.none => (false, st)
  | Option.some p =>
    match p.load env with
    | (Option.none, p2) => (false, commitPlugin st plugin_slug p2)
    | (Option.some c, p2) =>
      let st2 := commitPlugin st plugin_slug p2
      match c.construct Option.none with
      | Except.error _ => (false, st2)
      | Except.ok inst => (true,
          commitPlugin (registerBlueprintStep st2 inst) plugin_slug { p2 with status := "active" })

/-- The spec's words for the probe step of `activate`: "instantiates it
with empty config", i.e. the entry-point class is called with an empty
config mapping as its single constructor argument.  Identical to
`PluginManager.activate_plugin` except for that one call. -/
def PluginManager.activate_plugin_specProbe (st : ManagerState) (env : PyEnv)
    (plugin_slug : String) : Bool × ManagerState :=
  match st.db.plugins.find? (fun p => p.slug == plugin_slug) with
  | Option.none => (false, st)
  | Option.some p =>
    match p.load env with
    | (Option.none, p2) => (false, commitPlugin st plugin_slug p2)
    | (Option.some c, p2) =>
      let st2 := commitPlugin st plugin_slug p2
      match c.construct (Option.some []) with
      | Except.error _ => (false, st2)
      | Except.ok inst => (true,
          commitPlugin (registerBlueprintStep st2 inst) plugin_slug { p2 with status := "active" })

/-- `PluginManager.deactivate_plugin(plugin_slug)` (`plugin_manager.py`
lines 254–292): sets the row's status to `"inactive"`, commits, then
deletes the instance-cache entry whose key is exactly `plugin_slug`
(tenant-scoped keys `slug:tenant_id` are NOT touched), and refreshes the
row cache. -/
def PluginManager.deactivate_plugin (st : ManagerState) (plugin_slug : String) :
    Bool × ManagerState :=
  match st.db.plugins.find? (fun p => p.slug == plugin_slug) with
  | Option.none => (false, st)
  | Option.some p =>
    let p2 := { p with status := "inactive" }
    let st2 := commitPlugin st plugin_slug p2
    (true, { st2 with plugin_instances :=
        st2.plugin_instances.filter (fun kv => kv.1 != plugin_slug) })

/-- Sets `enabled = False` on the first `tenant_plugins` row matching the
pair, as the ORM `first()`-then-mutate does. -/
def disableFirst : List TenantPlugin → Nat → Nat → List TenantPlugin
  | [], _, _ => []
  | tp :: rest, tid, pid =>
    if tp.tenant_id == tid && tp.plugin_id == pid then { tp with enabled := false } :: rest
    else tp :: disableFirst rest tid pid

/-- `TenantPlugin.disable_for_tenant(tenant_id, plugin_id)`
(`tenant_plugin.py` lines 65–86): if an association row exists, sets its
`enabled` flag to false and commits, returning `True`; otherwise returns
`False`.  It never touches the plugin manager's instance cache. -/
def TenantPlugin.disable_for_tenant (db : DB) (tid pid : Nat) : Bool × DB :=
  match db.tenant_plugins.find? (fun tp => tp.tenant_id == tid && tp.plugin_id == pid) with
  | Option.none => (false, db)
  | Option.some _ => (true, { db with tenant_plugins := disableFirst db.tenant_plugins tid pid })

/-- The join `TenantPlugin.query.filter_by(tenant_id, enabled=True)
.join(Plugin).filter(Plugin.status == ACTIVE)`: enabled rows of the
tenant paired with their (active) plugin. -/
def joinedTenantPlugins (db : DB) (tid : Nat) : List (TenantPlugin × Plugin) :=
  (db.tenant_plugins.filter (fun tp => tp.tenant_id == tid && tp.enabled)).filterMap
    (fun tp =>
      match db.plugins.find? (fun p => p.id == tp.plugin_id) with
      | Option.some p => if p.status == "active" then Option.some (tp, p) else Option.none
      | Option.none => Option.none)

/-- `PluginManager.get_tenant_plugins(tenant_id)` (`plugin_manager.py`
lines 348–372): active `enabled_for_all` plugins, then the tenant's
enabled joined active plugins whose id is not already present. -/
def PluginManager.get_tenant_plugins (db : DB) (tid : Nat) : List Plugin :=
  let system_plugins := db.plugins.filter (fun p => p.status == "active" && p.enabled_for_all)
  let sys_ids := system_plugins.map (fun p => p.id)
  system_plugins ++
    ((joinedTenantPlugins db tid).filter
      (fun x => !(sys_ids.contains x.1.plugin_id))).map (fun x => x.2)

/-- The keyword arguments of `Plugin.register_plugin` (besides `slug`,
the upsert key, which is also here). -/
structure RegArgs where
  name : String
  slug : String
  version : String
  entry_point : String
  description : Option String
  author : Option String
  homepage : Option String
  config_schema : Option Config
  is_system : Bool
  enabled_for_all : Bool
deriving DecidableEq, Repr

/-- The field assignments `register_plugin` performs on an existing row
(`plugin.py` lines 98–108): every metadata field is overwritten
(`config_schema or {}` turns a missing/falsy schema into `{}`); `id`,
`slug` and `status` are untouched. -/
def applyRegUpdate (a : RegArgs) (p : Plugin) : Plugin :=
  { p with name := a.name, version := a.version, description := a.description,
           author := a.author, homepage := a.homepage, entry_point := a.entry_point,
           config_schema := a.config_schema.getD [], is_system := a.is_system,
           enabled_for_all := a.enabled_for_all }

/-- In-place update of the first row whose slug matches (the row
`filter_by(slug=slug).first()` returned; the DB keeps slugs unique). -/
def regUpdateFirst (a : RegArgs) : List Plugin → List Plugin
  | [] => []
  | p :: rest => if p.slug == a.slug then applyRegUpdate a p :: rest else p :: regUpdateFirst a rest

/-- The fresh row `register_plugin` inserts when no row with the slug
exists: all fields from the arguments, status `"inactive"`; `freshId` is
the id the database assigns. -/
def newRegPlugin (a : RegArgs) (freshId : Nat) : Plugin :=
  { id := freshId, name := a.name, slug := a.slug, version := a.version,
    description := a.description, author := a.author, homepage := a.homepage,
    entry_point := a.entry_point, config_schema := a.config_schema.getD [],
    status := "inactive", is_system := a.is_system, enabled_for_all := a.enabled_for_all }

/-- `Plugin.register_plugin(...)` (`plugin.py` lines 91–138): upsert by
slug.  Existing row: update metadata fields, keep status.  No row:
insert a new one with status `"inactive"`.  Returns the affected row. -/
def Plugin.register_plugin (db : DB) (a : RegArgs) (freshId : Nat) : Plugin × DB :=
  match db.plugins.find? (fun p => p.slug == a.slug) with
  | Option.some p => (applyRegUpdate a p, { db with plugins := regUpdateFirst a db.plugins })
  | Option.none =>
    (newRegPlugin a freshId, { db with plugins := db.plugins ++ [newRegPlugin a freshId] })

/-! ### Tenant model, schema manager, middleware, quotas -/

/-- Row of the `tenants` table (`app/tenant/tenant.py`), reduced to the
fields the modelled operations read. -/
structure TenantRec where
  id : Nat
  name : String
  slug : String
  schema_name : String
  domain : Option String
  status : String
  max_users : Int
  max_storage_mb : Int
deriving DecidableEq, Repr

/-- Tenant-side database state: the `tenants` table and the set of
existing PostgreSQL schemas. -/
structure TenantDB where
  tenants : List TenantRec
  schemas : List String
deriving DecidableEq, Repr

/-- Committed in-place status update of the first tenant row with the
given id (the ORM object `self`). -/
def setTenantStatus : List TenantRec → Nat → String → List TenantRec
  | [], _, _ => []
  | t :: rest, i, s => if t.id == i then { t with status := s } :: rest
                       else t :: setTenantStatus rest i s

/-- `db.session.delete(self)`: removes the first row with the id. -/
def eraseTenant : List TenantRec → Nat → List TenantRec
  | [], _ => []
  | t :: rest, i => if t.id == i then rest else t :: eraseTenant rest i

/-- `SchemaManager.drop_schema(schema_name)` (`schema_manager.py` lines
30–43): issues `DROP SCHEMA IF EXISTS ... CASCADE` and re-raises any
database error.  The external database's success or failure is the
`dropOk` oracle; on success the schema is gone. -/
def SchemaManager.drop_schema (schemas : List String) (schema_name : String) (dropOk : Bool) :
    Except String (List String) :=
  if dropOk then Except.ok (schemas.filter (fun s => s != schema_name))
  else Except.error "drop failed"

/-- `Tenant.delete()` (`tenant.py` lines 117–135): sets status to
`"decommissioning"` and commits; then drops the schema — on failure the
session is rolled back (nothing was pending) and the exception re-raised,
leaving the committed row; on success the row is deleted and committed.
The result pairs the database state after the call with the re-raised
exception, if any. -/
def Tenant.delete (db : TenantDB) (t : TenantRec) (dropOk : Bool) :
    TenantDB × Option String :=
  let db1 := { db with tenants := setTenantStatus db.tenants t.id "decommissioning" }
  match SchemaManager.drop_schema db1.schemas t.schema_name dropOk with
  | Except.error e => (db1, Option.some e)
  | Except.ok schemas2 =>
    ({ tenants := eraseTenant db1.tenants t.id, schemas := schemas2 }, Option.none)

/-- The request data `identify_tenant` reads: `request.host` (may carry a
port), `request.path`, and `request.args.get('tenant')`. -/
structure HttpRequest where
  host : String
  path : String
  query_tenant : Option String
deriving DecidableEq, Repr

/-- `Tenant.get_tenant_by_slug(slug)`: first row with that slug. -/
def Tenant.get_tenant_by_slug (tenants : List TenantRec) (slug : String) : Option TenantRec :=
  tenants.find? (fun t => t.slug == slug)

/-- `Tenant.get_tenant_by_domain(domain)`: first row with that domain. -/
def Tenant.get_tenant_by_domain (tenants : List TenantRec) (d : String) : Option TenantRec :=
  tenants.find? (fun t => t.domain == Option.some d)

/-- `identify_tenant()` (`middleware.py` lines 18–63), faithfully:
static-path requests short-circuit to no tenant; the subdomain source
fires only when the (port-stripped) host has MORE THAN TWO dot-separated
labels and the first is not `"www"`; then custom domain on the full host;
then the `/tenant/<slug>` path segment; then a truthy (non-empty)
`?tenant=` query value.  First match wins. -/
def identify_tenant (tenants : List TenantRec) (req : HttpRequest) : Option TenantRec :=
  let host := (pySplit req.host ':').headD req.host
  let parts := pySplit host '.'
  if pyStartsWith req.path "/static/" then Option.none
  else
    let bySub :=
      if parts.length > 2 && parts.headD "" != "www" then
        Tenant.get_tenant_by_slug tenants (parts.headD "")
      else Option.none
    match bySub with
    | Option.some t => Option.some t
    | Option.none =>
      match Tenant.get_tenant_by_domain tenants host with
      | Option.some t => Option.some t
      | Option.none =>
        let path_parts := pySplit req.path '/'
        let byPath :=
          if path_parts.length > 2 && path_parts.getD 1 "" == "tenant" then
            Tenant.get_tenant_by_slug tenants (path_parts.getD 2 "")
          else Option.none
        match byPath with
        | Option.some t => Option.some t
        | Option.none =>
          match req.query_tenant with
          | Option.some qs =>
            if qs != "" then
              match Tenant.get_tenant_by_slug tenants qs with
              | Option.some t => Option.some t
              | Option.none => Option.none
            else Option.none
          | Option.none => Option.none

/-- Row of the `tenant_usage` table (`app/tenant/quota.py`). -/
structure UsageRow where
  tenant_id : Nat
  resource_type : String
  usage_amount : Int
deriving DecidableEq, Repr

/-- `QuotaManager.get_usage(tenant, resource_type)`: the stored amount,
or 0 after inserting a fresh zero row when none exists. -/
def QuotaManager.get_usage (rows : List UsageRow) (t : TenantRec) (rt : String) :
    Int × List UsageRow :=
  match rows.find? (fun u => u.tenant_id == t.id && u.resource_type == rt) with
  | Option.some u => (u.usage_amount, rows)
  | Option.none => (0, rows ++ [{ tenant_id := t.id, resource_type := rt, usage_amount := 0 }])

/-- `QuotaManager.get_usage_percentage(tenant, resource_type)` (`quota.py`
lines 120–136).  Python computes `min(int((usage / limit) * 100), 100)`
with float division; this embedding uses the exact value
`Int.tdiv (usage * 100) limit` (truncation toward zero, as Python's
`int()`).  Float rounding can shift the exact value by one but never
changes its sign for `limit > 0`, and the `min _ 100` cap is applied
after either computation, so every property proved below — and the
concrete counterexample, whose intermediate values are exactly
representable in binary floating point — holds of the Python code as
written. -/
def QuotaManager.get_usage_percentage (rows : List UsageRow) (t : TenantRec) (rt : String) :
    Int :=
  let current_usage := (QuotaManager.get_usage rows t rt).1
  if rt == "users" then
    if t.max_users ≤ 0 then 100 else min (Int.tdiv (current_usage * 100) t.max_users) 100
  else if rt == "storage_mb" then
    if t.max_storage_mb ≤ 0 then 100
    else min (Int.tdiv (current_usage * 100) t.max_storage_mb) 100
  else 0

/-! ### Spec-side observables for the middleware claim -/

/-- First claimed tenant source — subdomain — as the code implements it:
the first label of the port-stripped host, tried only when the host has
more than two dot-separated labels and the label is not `"www"`.  (The
claim's wording omits the more-than-two-labels guard.) -/
def srcSubdomain (tenants : List TenantRec) (req : HttpRequest) : Option TenantRec :=
  let host := (pySplit req.host ':').headD req.host
  let parts := pySplit host '.'
  if parts.length > 2 && parts.headD "" != "www" then
    Tenant.get_tenant_by_slug tenants (parts.headD "")
  else Option.none

/-- Second claimed tenant source: custom-domain match on the full
(port-stripped) host. -/
def srcDomain (tenants : List TenantRec) (req : HttpRequest) : Option TenantRec :=
  Tenant.get_tenant_by_domain tenants ((pySplit req.host ':').headD req.host)

/-- Third claimed tenant source: the `/tenant/<slug>` path segment. -/
def srcPath (tenants : List TenantRec) (req : HttpRequest) : Option TenantRec :=
  let path_parts := pySplit req.path '/'
  if path_parts.length > 2 && path_parts.getD 1 "" == "tenant" then
    Tenant.get_tenant_by_slug tenants (path_parts.getD 2 "")
  else Option.none

/-- Fourth claimed tenant source: a truthy (non-empty) `?tenant=` query
value. -/
def srcQuery (tenants : List TenantRec) (req : HttpRequest) : Option TenantRec :=
  match req.query_tenant with
  | Option.some qs => if qs != "" then Tenant.get_tenant_by_slug tenants qs else Option.none
  | Option.none => Option.none

/-- The `tenant_plugins` table's composite uniqueness constraint
`uq_tenant_plugin` on `(tenant_id, plugin_id)`. -/
abbrev tpPairsNodup (l : List TenantPlugin) : Prop :=
  (l.map (fun r => (r.tenant_id, r.plugin_id))).Nodup

/-! ### Concrete fixtures: the notes-plugin scenario of the spec -/

/-- The instance `NotesPlugin.__init__` produces: it records its config and
exposes `get_blueprint`, returning the blueprint named `notes_plugin`. -/
def notesInstance (cfg : Config) : PluginInstance :=
  { config := cfg, has_get_blueprint := true,
    blueprint := Option.some { name := "notes_plugin" } }

/-- The notes entry-point class (`src/plugins/notes_plugin/plugin.py` lines
18–26): `def __init__(self, config=None): self.config = config or {}` — a
missing or falsy argument becomes the empty config; construction never
raises. -/
def NotesPluginClass : PluginClass :=
  { construct := fun a => Except.ok (notesInstance (a.getD [])) }

/-- The registered notes plugin row, already activated. -/
def notesRow : Plugin :=
  { id := 1, name := "Notes", slug := "notes", version := "1.0.0",
    description := Option.none, author := Option.none, homepage := Option.none,
    entry_point := "notes_plugin.plugin:NotesPlugin", config_schema := [],
    status := "active", is_system := false, enabled_for_all := false }

/-- Import environment in which `notes_plugin.plugin` resolves to a module
whose `NotesPlugin` attribute is the entry-point class. -/
def notesModules : PyEnv :=
  { modules := [("notes_plugin.plugin",
      { attrs := [("NotesPlugin", PyVal.cls NotesPluginClass)] })] }

/-- The spec scenario's tenant config `{"max_notes_per_user": 5}`. -/
def cfg5 : Config := [("max_notes_per_user", 5)]

/-- Tenant 1 has the notes plugin enabled with `cfg5`. -/
def tpRow : TenantPlugin :=
  { id := 1, tenant_id := 1, plugin_id := 1, enabled := true, config := cfg5 }

/-- Initial manager state: notes registered and active, enabled for tenant
1, blueprint mounted, no cached instances. -/
def stC1 : ManagerState :=
  { db := { plugins := [notesRow], tenant_plugins := [tpRow] },
    plugins := [("notes", notesRow)], plugin_instances := [],
    blueprints := ["notes_plugin"] }

/-- State after the first tenant-scoped `get_plugin_instance("notes", 1)`,
which caches the instance under the key `"notes:1"`. -/
def stC1a : ManagerState :=
  (PluginManager.get_plugin_instance stC1 notesModules "notes" (Option.some 1)).2

/-- State after a subsequent successful `deactivate_plugin("notes")`. -/
def stC1b : ManagerState :=
  (PluginManager.deactivate_plugin stC1a "notes").2

/-- The notes row before its first activation. -/
def notesInactiveRow : Plugin :=
  { notesRow with status := "inactive" }

/-- Manager state before any activation: notes registered but inactive,
nothing cached, no blueprints mounted. -/
def stC4 : ManagerState :=
  { db := { plugins := [notesInactiveRow], tenant_plugins := [] },
    plugins := [], plugin_instances := [], blueprints := [] }

/-- State after the first successful `activate_plugin("notes")`. -/
def stC4a : ManagerState :=
  (PluginManager.activate_plugin stC4 notesModules "notes").2

/-- A registered plugin whose entry-point attribute exists but is bound to
the Python `None` (`plugin = None` at module level). -/
def noneAttrRow : Plugin :=
  { id := 2, name := "Broken", slug := "broken", version := "0.1.0",
    description := Option.none, author := Option.none, homepage := Option.none,
    entry_point := "badmod:plugin", config_schema := [],
    status := "inactive", is_system := false, enabled_for_all := false }

/-- Import environment for `noneAttrRow`: the module imports fine and has
the attribute, but the attribute's value is `None`. -/
def noneAttrEnv : PyEnv :=
  { modules := [("badmod", { attrs := [("plugin", PyVal.none)] })] }

/-- An entry-point class whose constructor REQUIRES its config argument
(`def __init__(self, config)` with no default): calling it with no
argument raises `TypeError`. -/
def strictClass : PluginClass :=
  { construct := fun a =>
      match a with
      | Option.none => Except.error "TypeError: missing required argument"
      | Option.some cfg =>
        Except.ok { config := cfg, has_get_blueprint := false, blueprint := Option.none } }

/-- A registered, not yet active plugin row for `strictClass`. -/
def strictRow : Plugin :=
  { id := 3, name := "Strict", slug := "strict", version := "0.1.0",
    description := Option.none, author := Option.none, homepage := Option.none,
    entry_point := "strictmod:StrictPlugin", config_schema := [],
    status := "inactive", is_system := false, enabled_for_all := false }

/-- Import environment for `strictRow`. -/
def strictEnv : PyEnv :=
  { modules := [("strictmod", { attrs := [("StrictPlugin", PyVal.cls strictClass)] })] }

/-- Manager state with only the strict plugin registered. -/
def stC5 : ManagerState :=
  { db := { plugins := [strictRow], tenant_plugins := [] },
    plugins := [], plugin_instances := [], blueprints := [] }

/-- A tenant whose slug is `acme`, with no custom domain. -/
def acmeTenant : TenantRec :=
  { id := 1, name := "Acme", slug := "acme", schema_name := "tenant_acme",
    domain := Option.none, status := "active", max_users := 5, max_storage_mb := 100 }

/-- A request for a static asset that nevertheless carries two of the four
claimed tenant signals: subdomain `acme` and `?tenant=acme`. -/
def staticReq : HttpRequest :=
  { host := "acme.example.com", path := "/static/app.js",
    query_tenant := Option.some "acme" }

/-- A tenant with quota `max_users = 100`. -/
def quotaTenant : TenantRec :=
  { id := 7, name := "Q", slug := "q", schema_name := "tenant_q",
    domain := Option.none, status := "active", max_users := 100, max_storage_mb := 100 }

/-- A usage table recording `-50` users for that tenant (reachable via
`update_usage` or a negative `increment_usage`, neither of which guards
the sign). -/
def quotaRows : List UsageRow :=
  [{ tenant_id := 7, resource_type := "users", usage_amount := -50 }]

/-- Tenant database for the deletion scenario: the acme tenant and its
schema exist. -/
def tdbC6 : TenantDB :=
  { tenants := [acmeTenant], schemas := ["tenant_acme"] }

/-- An ordinary page request on the acme subdomain. -/
def reqC7 : HttpRequest :=
  { host := "acme.example.com", path := "/dashboard", query_tenant := Option.none }

/-- The registration arguments the notes plugin's `setup()` metadata
produces (`src/plugins/notes_plugin/__init__.py`). -/
def regArgsNotes : RegArgs :=
  { name := "Notes", slug := "notes", version := "1.0.0",
    entry_point := "notes_plugin.plugin:NotesPlugin",
    description := Option.some "A simple notes management plugin for organizing text notes",
    author := Option.some "Your Name", homepage := Option.some "https://example.com",
    config_schema := Option.none, is_system := false, enabled_for_all := false }

/-- A second active plugin, enabled for all tenants. -/
def sysRow : Plugin :=
  { id := 2, name := "Task Tracker", slug := "task-tracker", version := "1.0.0",
    description := Option.none, author := Option.none, homepage := Option.none,
    entry_point := "task_tracker.plugin:TaskTrackerPlugin", config_schema := [],
    status := "active", is_system := false, enabled_for_all := true }

/-- Database with one tenant-enabled plugin and one enabled-for-all
plugin. -/
def dbC9 : DB :=
  { plugins := [notesRow, sysRow], tenant_plugins := [tpRow] }

/-! ### Helper lemmas -/

/-- In a table whose mapped keys are distinct, the first row found with a
member's key is that member itself. -/
theorem find?_key_eq_some {α : Type} (key : α → Nat) :
    ∀ (l : List α) (x : α), (l.map key).Nodup → x ∈ l →
      l.find? (fun y => key y == key x) = Option.some x := by
  intro l
  induction l with
  | nil => intro x _ hm; cases hm
  | cons u rest ih =>
    intro x h hm
    simp only [List.map_cons, List.nodup_cons] at h
    by_cases he : key u = key x
    · have hux : u = x := by
        cases hm with
        | head => rfl
        | tail _ hm2 => exact absurd (he ▸ List.mem_map_of_mem key hm2) h.1
      subst hux
      exact List.find?_cons_of_pos _ (by simp)
    · have hm2 : x ∈ rest := by
        cases hm with
        | head => exact absurd rfl he
        | tail _ hm2 => exact hm2
      rw [List.find?_cons_of_neg _ (by simp [he])]
      exact ih x h.2 hm2

/-- A `find?` by a key that no row carries returns nothing. -/
theorem find?_key_eq_none {α : Type} (key : α → Nat) (k : Nat) :
    ∀ (l : List α), k ∉ l.map key → l.find? (fun y => key y == k) = Option.none := by
  intro l
  induction l with
  | nil => intro _; rfl
  | cons u rest ih =>
    intro h
    simp only [List.map_cons, List.mem_cons, not_or] at h
    rw [List.find?_cons_of_neg _ (by simp; exact fun hh => h.1 hh.symm)]
    exact ih h.2

/-- When the resolved attribute holds an entry-point class, `load`
returns it and leaves the row unchanged. -/
theorem load_of_attrVal_cls (p : Plugin) (env : PyEnv) (c : PluginClass)
    (h : moduleAttrVal p env = Option.some (PyVal.cls c)) :
    Plugin.load p env = (Option.some c, p) := by
  unfold moduleAttrVal at h
  unfold Plugin.load
  cases h1 : env.modules.lookup p.module_path with
  | none => rw [h1] at h; exact absurd h (by simp)
  | some m =>
    rw [h1] at h
    dsimp only at h ⊢
    cases h2 : m.attrs.lookup p.module_attr with
    | none => rw [h2] at h; exact absurd h (by simp)
    | some v =>
      rw [h2] at h
      cases v with
      | none => exact absurd h (by simp)
      | cls c2 =>
        have : c2 = c := by
          have := Option.some.inj h
          exact (PyVal.cls.inj this)
        rw [this]

/-- If `load` returns a class, the attribute held that class. -/
theorem attrVal_of_load_fst_some (p : Plugin) (env : PyEnv) (c : PluginClass)
    (h : (Plugin.load p env).1 = Option.some c) :
    moduleAttrVal p env = Option.some (PyVal.cls c) := by
  unfold Plugin.load at h
  unfold moduleAttrVal
  cases h1 : env.modules.lookup p.module_path with
  | none => rw [h1] at h; simp at h
  | some m =>
    rw [h1] at h
    dsimp only at h ⊢
    cases h2 : m.attrs.lookup p.module_attr with
    | none => rw [h2] at h; simp at h
    | some v =>
      rw [h2] at h
      cases v with
      | none => simp at h
      | cls c2 => simp at h; rw [h]

/-- If `load` returns a class, the plugin row is returned unchanged. -/
theorem load_snd_of_fst_some (p : Plugin) (env : PyEnv) (c : PluginClass)
    (h : (Plugin.load p env).1 = Option.some c) :
    Plugin.load p env = (Option.some c, p) :=
  load_of_attrVal_cls p env c (attrVal_of_load_fst_some p env c h)

/-- `load` only looks at `entry_point`, so changing the status field does
not change a successful load's result (beyond the returned row). -/
theorem load_status_congr (p : Plugin) (s : String) (env : PyEnv) (c : PluginClass)
    (h : Plugin.load p env = (Option.some c, p)) :
    Plugin.load { p with status := s } env = (Option.some c, { p with status := s }) := by
  have ha : moduleAttrVal p env = Option.some (PyVal.cls c) :=
    attrVal_of_load_fst_some p env c (by rw [h])
  have ha2 : moduleAttrVal { p with status := s } env = Option.some (PyVal.cls c) := ha
  exact load_of_attrVal_cls _ env c ha2

/-- A row with the target slug found in a table stays findable — as the
new row — after an in-place `putPlugin` update. -/
theorem find?_putPlugin (slug : String) (p : Plugin) (hp : p.slug = slug) :
    ∀ (l : List Plugin) (q : Plugin), l.find? (fun r => r.slug == slug) = Option.some q →
      (putPlugin l slug p).find? (fun r => r.slug == slug) = Option.some p := by
  intro l
  induction l with
  | nil => intro q hq; simp [List.find?] at hq
  | cons u rest ih =>
    intro q hq
    by_cases hu : u.slug = slug
    · rw [putPlugin, if_pos (by simp [hu])]
      exact List.find?_cons_of_pos _ (by simp [hp])
    · rw [putPlugin, if_neg (by simp [hu])]
      rw [List.find?_cons_of_neg _ (by simp [hu])] at hq
      rw [List.find?_cons_of_neg _ (by simp [hu])]
      exact ih q hq

/-- The blueprint-registration step never touches the database or the
caches. -/
theorem registerBlueprintStep_db (st : ManagerState) (inst : PluginInstance) :
    (registerBlueprintStep st inst).db = st.db := by
  unfold registerBlueprintStep
  split
  · cases inst.blueprint with
    | none => rfl
    | some bp => dsimp only; split <;> rfl
  · rfl

/-- After registering an instance's blueprint, its name is registered. -/
theorem registerBlueprintStep_contains (st : ManagerState) (inst : PluginInstance)
    (bp : Blueprint) (h1 : inst.has_get_blueprint = true)
    (h2 : inst.blueprint = Option.some bp) :
    (registerBlueprintStep st inst).blueprints.contains bp.name = true := by
  unfold registerBlueprintStep
  rw [h1, if_pos rfl, h2]
  dsimp only
  split
  · assumption
  · simp

/-- If every blueprint the instance would contribute is already
registered, the registration step is a no-op. -/
theorem registerBlueprintStep_noop (st : ManagerState) (inst : PluginInstance)
    (h : ∀ bp, inst.has_get_blueprint = true → inst.blueprint = Option.some bp →
      st.blueprints.contains bp.name = true) :
    registerBlueprintStep st inst = st := by
  unfold registerBlueprintStep
  cases h1 : inst.has_get_blueprint with
  | false => simp
  | true =>
    simp only [if_pos rfl]
    cases h2 : inst.blueprint with
    | none => rfl
    | some bp =>
      have hc := h bp h1 h2
      dsimp only
      rw [hc]
      simp

/-- The observable result of the guarded construction step. -/
theorem finishConstruct_fst (st : ManagerState) (key : String) (c : PluginClass)
    (cfg : Config) :
    (finishConstruct st key c cfg).1 = (c.construct (Option.some cfg)).toOption := by
  unfold finishConstruct
  cases h : c.construct (Option.some cfg) <;> simp [Except.toOption]

/-- Forward run of a successful activation: with the row found, the load
yielding a class, and the probe construction succeeding, `activate_plugin`
returns `True` and the final state. -/
theorem activate_run (st : ManagerState) (env : PyEnv) (slug : String)
    (p : Plugin) (c : PluginClass) (inst : PluginInstance)
    (hf : st.db.plugins.find? (fun r => r.slug == slug) = Option.some p)
    (hl : Plugin.load p env = (Option.some c, p))
    (hc : c.construct Option.none = Except.ok inst) :
    PluginManager.activate_plugin st env slug =
      (true, commitPlugin (registerBlueprintStep (commitPlugin st slug p) inst) slug
        { p with status := "active" }) := by
  unfold PluginManager.activate_plugin
  rw [hf]
  dsimp only
  rw [hl]
  dsimp only
  rw [hc]

/-- Inversion of a successful activation: it always happens through a
found row, a loaded class and a successful no-argument probe. -/
theorem activate_true_inv (st : ManagerState) (env : PyEnv) (slug : String)
    (st1 : ManagerState)
    (h : PluginManager.activate_plugin st env slug = (true, st1)) :
    ∃ p c inst,
      st.db.plugins.find? (fun r => r.slug == slug) = Option.some p
      ∧ Plugin.load p env = (Option.some c, p)
      ∧ c.construct Option.none = Except.ok inst
      ∧ st1 = commitPlugin (registerBlueprintStep (commitPlugin st slug p) inst) slug
          { p with status := "active" } := by
  unfold PluginManager.activate_plugin at h
  cases hf : st.db.plugins.find? (fun r => r.slug == slug) with
  | none => rw [hf] at h; simp at h
  | some p =>
    rw [hf] at h
    dsimp only at h
    cases hl : Plugin.load p env with
    | mk clsOpt p2 =>
      rw [hl] at h
      cases clsOpt with
      | none => simp at h
      | some c =>
        dsimp only at h
        have hp2 : p2 = p := by
          have h5 := load_snd_of_fst_some p env c (by rw [hl])
          rw [hl] at h5
          exact (Prod.mk.injEq _ _ _ _ ▸ h5).2
        rw [hp2] at hl h
        cases hcon : c.construct Option.none with
        | error e => rw [hcon] at h; simp at h
        | ok inst =>
          rw [hcon] at h
          dsimp only at h
          refine ⟨p, c, inst, rfl, hl, hcon, ?_⟩
          have := (Prod.mk.injEq _ _ _ _ ▸ h).2
          exact this.symm

/-- Forward run of `get_plugin_instance` from a state with no cached
instance under the key, the plugin cached and active, and the load
succeeding: the tenant-config resolution and guarded construction
remain. -/
theorem gpi_fresh_run (st : ManagerState) (env : PyEnv) (slug : String) (tid : Option Nat)
    (p : Plugin) (c : PluginClass)
    (hk : st.plugin_instances.lookup (instanceKey slug tid) = Option.none)
    (hp : st.plugins.lookup slug = Option.some p)
    (hact : p.status = "active")
    (hl : Plugin.load p env = (Option.some c, p)) :
    PluginManager.get_plugin_instance st env slug tid =
      if truthyTid tid then
        match st.db.tenant_plugins.find?
            (fun r => r.tenant_id == tid.getD 0 && r.plugin_id == p.id && r.enabled) with
        | Option.some tp =>
          finishConstruct (commitPlugin st slug p) (instanceKey slug tid) c tp.config
        | Option.none =>
          if p.enabled_for_all then
            finishConstruct (commitPlugin st slug p) (instanceKey slug tid) c []
          else (Option.none, commitPlugin st slug p)
      else finishConstruct (commitPlugin st slug p) (instanceKey slug tid) c [] := by
  unfold PluginManager.get_plugin_instance fetchPlugin
  dsimp only
  rw [hk]
  dsimp only
  rw [hp]
  dsimp only
  rw [hact]
  simp only [bne_self_eq_false, Bool.false_eq_true, if_false]
  rw [hl]
  rfl

/-- Inversion of a successful `disable_for_tenant`. -/
theorem disable_true_inv (db : DB) (t pid : Nat) (db2 : DB)
    (h : TenantPlugin.disable_for_tenant db t pid = (true, db2)) :
    db2 = { db with tenant_plugins := disableFirst db.tenant_plugins t pid } := by
  unfold TenantPlugin.disable_for_tenant at h
  cases hf : db.tenant_plugins.find? (fun tp => tp.tenant_id == t && tp.plugin_id == pid) with
  | none => rw [hf] at h; simp at h
  | some tp =>
    rw [hf] at h
    exact ((Prod.mk.injEq _ _ _ _ ▸ h).2).symm

/-- No row carries the pair, so the enabled-row query is empty. -/
theorem find?_enabled_none_of_pair_not_mem (t pid : Nat) :
    ∀ (l : List TenantPlugin), (t, pid) ∉ l.map (fun r => (r.tenant_id, r.plugin_id)) →
      l.find? (fun r => r.tenant_id == t && r.plugin_id == pid && r.enabled)
        = Option.none := by
  intro l
  induction l with
  | nil => intro _; rfl
  | cons u rest ih =>
    intro h
    simp only [List.map_cons, List.mem_cons, not_or] at h
    have hu : ¬(u.tenant_id = t ∧ u.plugin_id = pid) := by
      intro hh
      exact h.1 (by rw [hh.1, hh.2])
    rw [List.find?_cons_of_neg _ (by simp only [Bool.and_eq_true, beq_iff_eq]; tauto)]
    exact ih h.2

/-- After `disable_for_tenant` on a table satisfying the composite
uniqueness constraint, no enabled row with the pair remains. -/
theorem find?_enabled_after_disableFirst (t pid : Nat) :
    ∀ (l : List TenantPlugin), tpPairsNodup l →
      (disableFirst l t pid).find?
        (fun r => r.tenant_id == t && r.plugin_id == pid && r.enabled) = Option.none := by
  intro l
  induction l with
  | nil => intro _; rfl
  | cons u rest ih =>
    intro h
    unfold tpPairsNodup at h
    simp only [List.map_cons, List.nodup_cons] at h
    by_cases hu : u.tenant_id = t ∧ u.plugin_id = pid
    · rw [disableFirst, if_pos (by simp [hu.1, hu.2])]
      rw [List.find?_cons_of_neg _ (by simp)]
      exact find?_enabled_none_of_pair_not_mem t pid rest (by
        rw [← hu.1, ← hu.2]; exact h.1)
    · rw [disableFirst, if_neg (by simp only [Bool.and_eq_true, beq_iff_eq]; tauto)]
      rw [List.find?_cons_of_neg _ (by simp only [Bool.and_eq_true, beq_iff_eq]; tauto)]
      exact ih h.2

/-- The in-place status update does not change the ids column. -/
theorem setTenantStatus_map_id (i : Nat) (s : String) :
    ∀ l : List TenantRec, (setTenantStatus l i s).map TenantRec.id = l.map TenantRec.id := by
  intro l
  induction l with
  | nil => rfl
  | cons u rest ih =>
    by_cases hu : u.id = i
    · rw [setTenantStatus, if_pos (by simp [hu])]
      simp [ih]
    · rw [setTenantStatus, if_neg (by simp [hu])]
      simp [ih]

/-- Under unique ids, the member's row is findable — with the new
status — after the in-place status update. -/
theorem find?_setTenantStatus (s : String) :
    ∀ (l : List TenantRec) (t : TenantRec), (l.map TenantRec.id).Nodup → t ∈ l →
      (setTenantStatus l t.id s).find? (fun x => x.id == t.id)
        = Option.some { t with status := s } := by
  intro l
  induction l with
  | nil => intro t _ hm; cases hm
  | cons u rest ih =>
    intro t h hm
    simp only [List.map_cons, List.nodup_cons] at h
    by_cases hu : u.id = t.id
    · have hut : u = t := by
        cases hm with
        | head => rfl
        | tail _ hm2 => exact absurd (hu ▸ List.mem_map_of_mem TenantRec.id hm2) h.1
      rw [setTenantStatus, if_pos (by simp [hu])]
      rw [List.find?_cons_of_pos _ (by simp [hu])]
      rw [hut]
    · have hm2 : t ∈ rest := by
        cases hm with
        | head => exact absurd rfl hu
        | tail _ h2 => exact h2
      rw [setTenantStatus, if_neg (by simp [hu])]
      rw [List.find?_cons_of_neg _ (by simp [hu])]
      exact ih t h.2 hm2

/-- Under unique ids, after erasing the row with an id nothing with that
id remains findable. -/
theorem find?_id_none_eraseTenant :
    ∀ (l : List TenantRec) (i : Nat), (l.map TenantRec.id).Nodup →
      (eraseTenant l i).find? (fun x => x.id == i) = Option.none := by
  intro l
  induction l with
  | nil => intro i _; rfl
  | cons u rest ih =>
    intro i h
    simp only [List.map_cons, List.nodup_cons] at h
    by_cases hu : u.id = i
    · rw [eraseTenant, if_pos (by simp [hu])]
      exact find?_key_eq_none TenantRec.id i rest (hu ▸ h.1)
    · rw [eraseTenant, if_neg (by simp [hu])]
      rw [List.find?_cons_of_neg _ (by simp [hu])]
      exact ih i h.2

/-- Every row after a `regUpdateFirst` descends from a row of the
original table with the same id, slug and status. -/
theorem regUpdateFirst_mem (a : RegArgs) :
    ∀ (l : List Plugin) (q : Plugin), q ∈ regUpdateFirst a l →
      ∃ q0, q0 ∈ l ∧ q.status = q0.status ∧ q.slug = q0.slug ∧ q.id = q0.id := by
  intro l
  induction l with
  | nil => intro q hq; cases hq
  | cons u rest ih =>
    intro q hq
    by_cases hu : u.slug = a.slug
    · rw [regUpdateFirst, if_pos (by simp [hu])] at hq
      cases hq with
      | head => exact ⟨u, List.mem_cons_self u rest, rfl, rfl, rfl⟩
      | tail _ hq2 => exact ⟨q, List.mem_cons_of_mem u hq2, rfl, rfl, rfl⟩
    · rw [regUpdateFirst, if_neg (by simp [hu])] at hq
      cases hq with
      | head => exact ⟨u, List.mem_cons_self u rest, rfl, rfl, rfl⟩
      | tail _ hq2 =>
        obtain ⟨q0, hq0, h1, h2, h3⟩ := ih q hq2
        exact ⟨q0, List.mem_cons_of_mem u hq0, h1, h2, h3⟩

/-- The first components of a first-component-preserving `filterMap` form
a sublist of the input. -/
theorem map_fst_filterMap_sublist {α β : Type} (f : α → Option (α × β))
    (hf : ∀ a x, f a = Option.some x → x.1 = a) :
    ∀ l : List α, ((l.filterMap f).map Prod.fst).Sublist l := by
  intro l
  induction l with
  | nil => simp
  | cons u rest ih =>
    rw [List.filterMap_cons]
    cases hu : f u with
    | none => exact List.Sublist.cons u ih
    | some x =>
      rw [List.map_cons]
      rw [hf u x hu]
      exact List.Sublist.cons₂ u ih

/-- What membership in the join means: the association row belongs to the
tenant and is enabled, and the paired plugin is the row's active plugin. -/
theorem joined_mem (db : DB) (tid : Nat) (x : TenantPlugin × Plugin)
    (hx : x ∈ joinedTenantPlugins db tid) :
    x.1 ∈ db.tenant_plugins ∧ x.1.tenant_id = tid ∧ x.1.enabled = true
    ∧ x.2 ∈ db.plugins ∧ x.2.id = x.1.plugin_id ∧ x.2.status = "active" := by
  unfold joinedTenantPlugins at hx
  rw [List.mem_filterMap] at hx
  obtain ⟨tp, htp, hfx⟩ := hx
  rw [List.mem_filter] at htp
  have htc : tp.tenant_id = tid ∧ tp.enabled = true := by
    have := htp.2
    simp only [Bool.and_eq_true, beq_iff_eq] at this
    exact this
  cases hfind : db.plugins.find? (fun p => p.id == tp.plugin_id) with
  | none => rw [hfind] at hfx; simp at hfx
  | some p =>
    rw [hfind] at hfx
    dsimp only at hfx
    by_cases hst : (p.status == "active") = true
    · rw [if_pos hst] at hfx
      have hxe : x = (tp, p) := (Option.some.inj hfx).symm
      subst hxe
      refine ⟨htp.1, htc.1, htc.2, ?_, ?_, ?_⟩
      · exact List.mem_of_find?_eq_some hfind
      · simpa using List.find?_some hfind
      · simpa using hst
    · rw [if_neg hst] at hfx; simp at hfx

/-- Completeness of the join: an enabled row of the tenant whose plugin
is active and present appears (with its plugin resolved by id) in the
join, under unique plugin ids. -/
theorem joined_complete (db : DB) (tid : Nat) (p : Plugin) (tp : TenantPlugin)
    (hids : (db.plugins.map Plugin.id).Nodup)
    (hpmem : p ∈ db.plugins) (htpmem : tp ∈ db.tenant_plugins)
    (ht : tp.tenant_id = tid) (hen : tp.enabled = true) (hpid : tp.plugin_id = p.id)
    (hact : p.status = "active") :
    (tp, p) ∈ joinedTenantPlugins db tid := by
  unfold joinedTenantPlugins
  rw [List.mem_filterMap]
  refine ⟨tp, ?_, ?_⟩
  · rw [List.mem_filter]
    exact ⟨htpmem, by simp [ht, hen]⟩
  · have hfind : db.plugins.find? (fun q => q.id == tp.plugin_id) = Option.some p := by
      rw [hpid]
      exact find?_key_eq_some Plugin.id db.plugins p hids hpmem
    rw [hfind]
    dsimp only
    rw [if_pos (by simp [hact])]

/-- With the composite pair constraint and a fixed tenant, the rows'
plugin ids are distinct. -/
theorem plugin_ids_nodup_of_pairs (tid : Nat) :
    ∀ l : List TenantPlugin, (l.map (fun r => (r.tenant_id, r.plugin_id))).Nodup →
      (∀ r ∈ l, r.tenant_id = tid) → (l.map TenantPlugin.plugin_id).Nodup := by
  intro l
  induction l with
  | nil => intro _ _; simp
  | cons u rest ih =>
    intro h hall
    simp only [List.map_cons, List.nodup_cons] at h ⊢
    refine ⟨?_, ih h.2 (fun r hr => hall r (List.mem_cons_of_mem u hr))⟩
    intro hmem
    rw [List.mem_map] at hmem
    obtain ⟨r, hr, hpid⟩ := hmem
    apply h.1
    rw [List.mem_map]
    refine ⟨r, hr, ?_⟩
    rw [hpid, hall r (List.mem_cons_of_mem u hr), hall u (List.mem_cons_self u rest)]

/-- The joined rows' plugin ids are distinct under the composite pair
constraint. -/
theorem joined_ids_nodup (db : DB) (tid : Nat) (hU : tpPairsNodup db.tenant_plugins) :
    ((joinedTenantPlugins db tid).map (fun x => x.1.plugin_id)).Nodup := by
  have hf : ∀ (tp : TenantPlugin) (x : TenantPlugin × Plugin),
      (match db.plugins.find? (fun p => p.id == tp.plugin_id) with
        | Option.some p => if p.status == "active" then Option.some (tp, p) else Option.none
        | Option.none => Option.none) = Option.some x → x.1 = tp := by
    intro tp x h
    cases hfind : db.plugins.find? (fun p => p.id == tp.plugin_id) with
    | none => rw [hfind] at h; simp at h
    | some p =>
      rw [hfind] at h
      dsimp only at h
      by_cases hst : (p.status == "active") = true
      · rw [if_pos hst] at h
        rw [← Option.some.inj h]
      · rw [if_neg hst] at h; simp at h
  have hsub : ((joinedTenantPlugins db tid).map Prod.fst).Sublist
      (db.tenant_plugins.filter (fun tp => tp.tenant_id == tid && tp.enabled)) := by
    unfold joinedTenantPlugins
    exact map_fst_filterMap_sublist _ hf _
  have hfilter_pairs : ((db.tenant_plugins.filter
      (fun tp => tp.tenant_id == tid && tp.enabled)).map
        (fun r => (r.tenant_id, r.plugin_id))).Nodup :=
    List.Nodup.sublist ((List.filter_sublist _).map _) hU
  have hall : ∀ r ∈ db.tenant_plugins.filter (fun tp => tp.tenant_id == tid && tp.enabled),
      r.tenant_id = tid := by
    intro r hr
    have := (List.mem_filter.mp hr).2
    simp only [Bool.and_eq_true, beq_iff_eq] at this
    exact this.1
  have hfilter_ids := plugin_ids_nodup_of_pairs tid _ hfilter_pairs hall
  have hmm : ((joinedTenantPlugins db tid).map (fun x => x.1.plugin_id))
      = ((joinedTenantPlugins db tid).map Prod.fst).map TenantPlugin.plugin_id := by
    rw [List.map_map]
    rfl
  rw [hmm]
  exact List.Nodup.sublist (hsub.map TenantPlugin.plugin_id) hfilter_ids

/-! ### Claim theorems -/

/-- C1, failing run: a tenant-scoped call populates the cache key
`"notes:1"`; `deactivate_plugin("notes")` then succeeds and persists
status `"inactive"`, but evicts only the tenant-free key `"notes"`, so
the next tenant-scoped call returns the stale cached instance although
the plugin's status is not `"active"`. -/
theorem C1_stale_tenant_cache_run :
    (PluginManager.get_plugin_instance stC1 notesModules "notes" (Option.some 1)).1
        = Option.some (notesInstance cfg5)
      ∧ (PluginManager.deactivate_plugin stC1a "notes").1 = true
      ∧ stC1b.db.plugins.map Plugin.status = ["inactive"]
      ∧ (stC1b.plugins.lookup "notes").map Plugin.status = Option.some "inactive"
      ∧ stC1b.plugin_instances.lookup "notes:1"
          = Option.some (notesInstance cfg5)
      ∧ (PluginManager.get_plugin_instance stC1b notesModules "notes" (Option.some 1)).1
          = Option.some (notesInstance cfg5) := by
  decide

/-- C2, counterexample: starting from the state in which the tenant-scoped
instance is cached, `disable_for_tenant(1, 1)` succeeds and leaves no
enabled association row, the plugin is not `enabled_for_all`, and yet the
subsequent tenant-scoped `get_plugin_instance("notes", 1)` still returns
the cached instance instead of none: the claim's disable-then-none
scenario fails on the code. -/
theorem C2_cached_instance_survives_disable :
    (TenantPlugin.disable_for_tenant stC1a.db 1 1).1 = true
      ∧ ((TenantPlugin.disable_for_tenant stC1a.db 1 1).2.tenant_plugins.filter
          (fun tp => tp.tenant_id == 1 && tp.plugin_id == 1 && tp.enabled)) = []
      ∧ notesRow.enabled_for_all = false
      ∧ (PluginManager.get_plugin_instance
            { stC1a with db := (TenantPlugin.disable_for_tenant stC1a.db 1 1).2 }
            notesModules "notes" (Option.some 1)).1
          = Option.some (notesInstance cfg5) := by
  decide

/-- C3, counterexample: with the entry-point attribute bound to `None`,
`hasattr` succeeds, so `load()` returns `getattr(...)` — that is, returns
nothing usable — without setting the status to `"error"`: the claimed
dichotomy (usable class, or status error) fails. -/
theorem C3_attr_bound_to_none :
    (Plugin.load noneAttrRow noneAttrEnv).1.isSome = false
      ∧ (Plugin.load noneAttrRow noneAttrEnv).2 = noneAttrRow
      ∧ noneAttrRow.status = "inactive" := by
  refine ⟨rfl, rfl, rfl⟩

/-- C5, counterexample: on a plugin whose entry-point class demands its
single constructor argument, the code's `plugin_class()` probe raises and
activation fails with the status left `"inactive"`, whereas the claimed
probe `plugin_class({})` — an empty config mapping as the single
argument — would succeed and activate the plugin.  So `activate_plugin`
does not construct the probe the way the claim states. -/
theorem C5_probe_arity_differs :
    (PluginManager.activate_plugin stC5 strictEnv "strict").1 = false
      ∧ (PluginManager.activate_plugin stC5 strictEnv "strict").2.db.plugins.map Plugin.status
          = ["inactive"]
      ∧ (PluginManager.activate_plugin_specProbe stC5 strictEnv "strict").1 = true
      ∧ (PluginManager.activate_plugin_specProbe stC5 strictEnv
            "strict").2.db.plugins.map Plugin.status = ["active"] := by
  decide

/-- C7, counterexample: on a `/static/` request the middleware returns no
tenant even though both the subdomain source and the query-parameter
source match an existing tenant — the claimed "exactly four sources are
tried on every HTTP request, first match wins" is false. -/
theorem C7_static_request_skips_sources :
    identify_tenant [acmeTenant] staticReq = Option.none
      ∧ Tenant.get_tenant_by_slug [acmeTenant] "acme" = Option.some acmeTenant := by
  decide

/-- C10, counterexample: with recorded usage `-50` and limit `100` the
percentage is `-50`, outside the claimed 0–100 range (all intermediate
Python float values here, `-0.5` and `-50.0`, are exactly representable,
so the float computation returns the same value). -/
theorem C10_negative_usage_percentage :
    QuotaManager.get_usage_percentage quotaRows quotaTenant "users" = -50
      ∧ ¬(0 ≤ QuotaManager.get_usage_percentage quotaRows quotaTenant "users") := by
  decide

/-- C4: `activate_plugin` is idempotent — after one successful call on a
slug, a second immediate call also succeeds, the persisted status before
and after the second call is `"active"`, and the registered blueprint
list is unchanged by the second call (the name-guard skips
re-registration). -/
theorem C4_activate_idempotent (st : ManagerState) (env : PyEnv) (slug : String)
    (st1 : ManagerState)
    (h1 : PluginManager.activate_plugin st env slug = (true, st1)) :
    ∃ st2, PluginManager.activate_plugin st1 env slug = (true, st2)
      ∧ st2.blueprints = st1.blueprints
      ∧ (st1.db.plugins.find? (fun r => r.slug == slug)).map Plugin.status
          = Option.some "active"
      ∧ (st2.db.plugins.find? (fun r => r.slug == slug)).map Plugin.status
          = Option.some "active" := by
  obtain ⟨p, c, inst, hf, hl, hc, hst1⟩ := activate_true_inv st env slug st1 h1
  have hpslug : p.slug = slug := by simpa using List.find?_some hf
  have hdb1 : st1.db.plugins
      = putPlugin (putPlugin st.db.plugins slug p) slug { p with status := "active" } := by
    rw [hst1]
    show putPlugin (registerBlueprintStep (commitPlugin st slug p) inst).db.plugins slug
        { p with status := "active" } = _
    rw [registerBlueprintStep_db]
    rfl
  have hf1 : st1.db.plugins.find? (fun r => r.slug == slug)
      = Option.some { p with status := "active" } := by
    rw [hdb1]
    exact find?_putPlugin slug { p with status := "active" } hpslug _ p
      (find?_putPlugin slug p hpslug st.db.plugins p hf)
  have hbl1 : st1.blueprints
      = (registerBlueprintStep (commitPlugin st slug p) inst).blueprints := by
    rw [hst1]
    rfl
  have hl3 : Plugin.load { p with status := "active" } env
      = (Option.some c, { p with status := "active" }) :=
    load_status_congr p "active" env c hl
  have hnoop : registerBlueprintStep (commitPlugin st1 slug { p with status := "active" }) inst
      = commitPlugin st1 slug { p with status := "active" } := by
    apply registerBlueprintStep_noop
    intro bp hh1 hh2
    show st1.blueprints.contains bp.name = true
    rw [hbl1]
    exact registerBlueprintStep_contains _ inst bp hh1 hh2
  have hrun2 := activate_run st1 env slug { p with status := "active" } c inst hf1 hl3 hc
  rw [hnoop] at hrun2
  refine ⟨_, hrun2, rfl, ?_, ?_⟩
  · rw [hf1]; rfl
  · show ((putPlugin (putPlugin st1.db.plugins slug { p with status := "active" }) slug
        { p with status := "active" }).find? (fun r => r.slug == slug)).map Plugin.status
      = Option.some "active"
    rw [find?_putPlugin slug { p with status := "active" } hpslug _ _
      (find?_putPlugin slug { p with status := "active" } hpslug st1.db.plugins _ hf1)]
    rfl

/-- C4, witness: the concrete first activation of the notes plugin
succeeds, and the theorem applies to it. -/
theorem C4_activate_idempotent_witness :
    ∃ st2, PluginManager.activate_plugin stC4a notesModules "notes" = (true, st2)
      ∧ st2.blueprints = stC4a.blueprints
      ∧ (stC4a.db.plugins.find? (fun r => r.slug == "notes")).map Plugin.status
          = Option.some "active"
      ∧ (st2.db.plugins.find? (fun r => r.slug == "notes")).map Plugin.status
          = Option.some "active" :=
  C4_activate_idempotent stC4 notesModules "notes" stC4a (by decide)

/-- C2 (amended by the cache counterexample): when no instance is cached
under the relevant keys and the plugin is cached and active with a
loadable class, a tenant-scoped `get_plugin_instance` returns an instance
only through the enabled-row-or-`enabled_for_all` gate, passing the row's
config (else the empty config) as the constructor argument; after
`disable_for_tenant` (under the table's composite uniqueness constraint)
the tenant-scoped call returns none while the tenant-free call still
constructs with the empty config. -/
theorem C2_tenant_gating_amended (st : ManagerState) (env : PyEnv) (slug : String)
    (t : Nat) (p : Plugin) (c : PluginClass)
    (ht : t ≠ 0)
    (hk : st.plugin_instances.lookup (instanceKey slug (Option.some t)) = Option.none)
    (hkf : st.plugin_instances.lookup slug = Option.none)
    (hp : st.plugins.lookup slug = Option.some p)
    (hact : p.status = "active")
    (hl : Plugin.load p env = (Option.some c, p)) :
    (∀ tp, st.db.tenant_plugins.find?
        (fun r => r.tenant_id == t && r.plugin_id == p.id && r.enabled) = Option.some tp →
      (PluginManager.get_plugin_instance st env slug (Option.some t)).1
        = (c.construct (Option.some tp.config)).toOption)
    ∧ (st.db.tenant_plugins.find?
        (fun r => r.tenant_id == t && r.plugin_id == p.id && r.enabled) = Option.none →
      (p.enabled_for_all = false →
        (PluginManager.get_plugin_instance st env slug (Option.some t)).1 = Option.none)
      ∧ (p.enabled_for_all = true →
        (PluginManager.get_plugin_instance st env slug (Option.some t)).1
          = (c.construct (Option.some [])).toOption))
    ∧ (PluginManager.get_plugin_instance st env slug Option.none).1
        = (c.construct (Option.some [])).toOption
    ∧ (∀ db2, TenantPlugin.disable_for_tenant st.db t p.id = (true, db2) →
        tpPairsNodup st.db.tenant_plugins → p.enabled_for_all = false →
        (PluginManager.get_plugin_instance { st with db := db2 } env slug (Option.some t)).1
          = Option.none) := by
  have htr : truthyTid (Option.some t) = true := by simp [truthyTid, ht]
  have hrun := gpi_fresh_run st env slug (Option.some t) p c hk hp hact hl
  rw [htr, if_pos rfl] at hrun
  simp only [Option.getD_some] at hrun
  refine ⟨?_, ?_, ?_, ?_⟩
  · intro tp htp
    rw [hrun, htp]
    exact finishConstruct_fst _ _ _ _
  · intro hn
    rw [hrun, hn]
    constructor
    · intro hefa
      rw [hefa, if_neg Bool.false_ne_true]
    · intro hefa
      rw [hefa, if_pos rfl]
      exact finishConstruct_fst _ _ _ _
  · have hrun0 := gpi_fresh_run st env slug Option.none p c hkf hp hact hl
    rw [show truthyTid Option.none = false from rfl, if_neg Bool.false_ne_true] at hrun0
    rw [hrun0]
    exact finishConstruct_fst _ _ _ _
  · intro db2 hdis hU hefa
    have hdb2 := disable_true_inv st.db t p.id db2 hdis
    have hrun2 := gpi_fresh_run { st with db := db2 } env slug (Option.some t) p c hk hp hact hl
    rw [htr, if_pos rfl] at hrun2
    simp only [Option.getD_some] at hrun2
    have hsc : ({ st with db := db2 } : ManagerState).db.tenant_plugins
        = disableFirst st.db.tenant_plugins t p.id := by
      rw [hdb2]
    rw [hsc, find?_enabled_after_disableFirst t p.id st.db.tenant_plugins hU] at hrun2
    rw [hrun2, hefa, if_neg Bool.false_ne_true]

/-- C2, witness: in the concrete notes scenario with an empty instance
cache, the tenant-scoped call constructs with the enabled row's config. -/
theorem C2_tenant_gating_amended_witness :
    (PluginManager.get_plugin_instance stC1 notesModules "notes" (Option.some 1)).1
      = (NotesPluginClass.construct (Option.some tpRow.config)).toOption :=
  (C2_tenant_gating_amended stC1 notesModules "notes" 1 notesRow NotesPluginClass
    (by decide) (by rfl) (by rfl) (by rfl) (by rfl) (by rfl)).1 tpRow (by rfl)

/-- C3 (amended by the `None`-attribute counterexample): `load` never
raises; when it returns a class the row is untouched; when it returns
nothing, either the status was set (and committed) to `"error"` — the
failed-import and missing-attribute cases — or the module attribute
exists but is bound to the Python `None`, in which case the status is
left unchanged. -/
theorem C3_load_amended (p : Plugin) (env : PyEnv) :
    ((Plugin.load p env).1.isSome = true → Plugin.load p env = ((Plugin.load p env).1, p))
    ∧ ((Plugin.load p env).1 = Option.none →
        (Plugin.load p env).2.status = "error"
        ∨ (moduleAttrVal p env = Option.some PyVal.none ∧ (Plugin.load p env).2 = p)) := by
  unfold Plugin.load moduleAttrVal
  cases h1 : env.modules.lookup p.module_path with
  | none =>
    constructor
    · intro h; simp at h
    · intro _; left; rfl
  | some m =>
    dsimp only
    cases h2 : m.attrs.lookup p.module_attr with
    | none =>
      constructor
      · intro h; simp at h
      · intro _; left; rfl
    | some v =>
      cases v with
      | none =>
        constructor
        · intro h; simp at h
        · intro _; right; exact ⟨rfl, rfl⟩
      | cls c =>
        constructor
        · intro _; rfl
        · intro h; simp at h

/-- C3, witness: a successful load (the notes plugin) returns the class
and leaves the row untouched. -/
theorem C3_load_amended_witness :
    Plugin.load notesRow notesModules = ((Plugin.load notesRow notesModules).1, notesRow) :=
  (C3_load_amended notesRow notesModules).1 (by decide)

/-- C5 (amended by the arity counterexample): `activate_plugin` builds the
probe instance by calling the loaded entry-point class with NO argument —
the activation outcome is exactly determined by `construct` at the
no-argument call — and an entry-point class that defaults its config
parameter, as the notes plugin does, therefore yields a probe carrying
the empty config. -/
theorem C5_probe_no_argument (st : ManagerState) (env : PyEnv) (slug : String)
    (p : Plugin) (c : PluginClass)
    (hf : st.db.plugins.find? (fun r => r.slug == slug) = Option.some p)
    (hl : Plugin.load p env = (Option.some c, p)) :
    (∀ e, c.construct Option.none = Except.error e →
      PluginManager.activate_plugin st env slug = (false, commitPlugin st slug p))
    ∧ (∀ inst, c.construct Option.none = Except.ok inst →
      (PluginManager.activate_plugin st env slug).1 = true
      ∧ ((PluginManager.activate_plugin st env slug).2.db.plugins.find?
          (fun r => r.slug == slug)).map Plugin.status = Option.some "active")
    ∧ NotesPluginClass.construct Option.none = Except.ok (notesInstance []) := by
  have hpslug : p.slug = slug := by simpa using List.find?_some hf
  refine ⟨?_, ?_, rfl⟩
  · intro e hcon
    unfold PluginManager.activate_plugin
    rw [hf]
    dsimp only
    rw [hl]
    dsimp only
    rw [hcon]
  · intro inst hcon
    have hrun := activate_run st env slug p c inst hf hl hcon
    rw [hrun]
    refine ⟨rfl, ?_⟩
    show ((putPlugin (registerBlueprintStep (commitPlugin st slug p) inst).db.plugins slug
        { p with status := "active" }).find? (fun r => r.slug == slug)).map Plugin.status
      = Option.some "active"
    rw [registerBlueprintStep_db]
    show ((putPlugin (putPlugin st.db.plugins slug p) slug
        { p with status := "active" }).find? (fun r => r.slug == slug)).map Plugin.status
      = Option.some "active"
    rw [find?_putPlugin slug { p with status := "active" } hpslug _ p
      (find?_putPlugin slug p hpslug st.db.plugins p hf)]
    rfl

/-- C5, witness: activating the registered notes plugin succeeds, its
class accepting the no-argument probe call. -/
theorem C5_probe_no_argument_witness :
    (PluginManager.activate_plugin stC4 notesModules "notes").1 = true
      ∧ ((PluginManager.activate_plugin stC4 notesModules "notes").2.db.plugins.find?
          (fun r => r.slug == "notes")).map Plugin.status = Option.some "active" :=
  (C5_probe_no_argument stC4 notesModules "notes" notesInactiveRow NotesPluginClass
    (by decide) (by rfl)).2.1 (notesInstance []) (by rfl)

/-- C6: if the schema drop raises during `Tenant.delete`, the exception
propagates and the tenant row survives with status `"decommissioning"`
(and the schema set is untouched); once the drop succeeds, the call
returns normally and the row is gone. -/
theorem C6_delete_drop_gate (db : TenantDB) (t : TenantRec) (dropOk : Bool)
    (hids : (db.tenants.map TenantRec.id).Nodup) (hm : t ∈ db.tenants) :
    (dropOk = false →
      (Tenant.delete db t false).2 = Option.some "drop failed"
      ∧ (Tenant.delete db t false).1.tenants.find? (fun x => x.id == t.id)
          = Option.some { t with status := "decommissioning" }
      ∧ (Tenant.delete db t false).1.schemas = db.schemas)
    ∧ (dropOk = true →
      (Tenant.delete db t true).2 = Option.none
      ∧ (Tenant.delete db t true).1.tenants.find? (fun x => x.id == t.id)
          = Option.none) := by
  constructor
  · intro _
    refine ⟨rfl, ?_, rfl⟩
    show (setTenantStatus db.tenants t.id "decommissioning").find? (fun x => x.id == t.id)
      = Option.some { t with status := "decommissioning" }
    exact find?_setTenantStatus "decommissioning" db.tenants t hids hm
  · intro _
    refine ⟨rfl, ?_⟩
    show (eraseTenant (setTenantStatus db.tenants t.id "decommissioning") t.id).find?
        (fun x => x.id == t.id) = Option.none
    apply find?_id_none_eraseTenant
    rw [setTenantStatus_map_id]
    exact hids

/-- C6, witness: deleting the acme tenant with a succeeding drop removes
the row. -/
theorem C6_delete_drop_gate_witness :
    (Tenant.delete tdbC6 acmeTenant true).2 = Option.none
      ∧ (Tenant.delete tdbC6 acmeTenant true).1.tenants.find?
          (fun x => x.id == acmeTenant.id) = Option.none :=
  (C6_delete_drop_gate tdbC6 acmeTenant true (by decide) (by decide)).2 rfl

/-- C8: `register_plugin` is an upsert keyed by slug — a fresh slug
appends a row whose status is `"inactive"` and whose fields come from the
arguments; an existing slug gets its metadata fields overwritten while
id, slug and status are preserved, and no other row's id, slug or status
changes. -/
theorem C8_register_upsert (db : DB) (a : RegArgs) (freshId : Nat) :
    (db.plugins.find? (fun r => r.slug == a.slug) = Option.none →
      (Plugin.register_plugin db a freshId).1 = newRegPlugin a freshId
      ∧ (Plugin.register_plugin db a freshId).1.status = "inactive"
      ∧ (Plugin.register_plugin db a freshId).2.plugins
          = db.plugins ++ [newRegPlugin a freshId])
    ∧ (∀ p, db.plugins.find? (fun r => r.slug == a.slug) = Option.some p →
      (Plugin.register_plugin db a freshId).1.status = p.status
      ∧ (Plugin.register_plugin db a freshId).1.id = p.id
      ∧ (Plugin.register_plugin db a freshId).1.slug = p.slug
      ∧ (Plugin.register_plugin db a freshId).1.name = a.name
      ∧ (Plugin.register_plugin db a freshId).1.version = a.version
      ∧ (Plugin.register_plugin db a freshId).1.entry_point = a.entry_point
      ∧ (Plugin.register_plugin db a freshId).1.description = a.description
      ∧ (Plugin.register_plugin db a freshId).1.author = a.author
      ∧ (Plugin.register_plugin db a freshId).1.homepage = a.homepage
      ∧ (Plugin.register_plugin db a freshId).1.config_schema = a.config_schema.getD []
      ∧ (Plugin.register_plugin db a freshId).1.is_system = a.is_system
      ∧ (Plugin.register_plugin db a freshId).1.enabled_for_all = a.enabled_for_all
      ∧ (Plugin.register_plugin db a freshId).2.plugins = regUpdateFirst a db.plugins
      ∧ ∀ q, q ∈ (Plugin.register_plugin db a freshId).2.plugins →
          ∃ q0, q0 ∈ db.plugins ∧ q.status = q0.status ∧ q.slug = q0.slug ∧ q.id = q0.id) := by
  constructor
  · intro hn
    unfold Plugin.register_plugin
    rw [hn]
    exact ⟨rfl, rfl, rfl⟩
  · intro p hp
    unfold Plugin.register_plugin
    rw [hp]
    refine ⟨rfl, rfl, rfl, rfl, rfl, rfl, rfl, rfl, rfl, rfl, rfl, rfl, rfl, ?_⟩
    intro q hq
    exact regUpdateFirst_mem a db.plugins q hq

/-- C8, witness: registering the notes metadata into an empty registry
creates the row with status `"inactive"`. -/
theorem C8_register_upsert_witness :
    (Plugin.register_plugin { plugins := [], tenant_plugins := [] } regArgsNotes 1).1
        = newRegPlugin regArgsNotes 1
      ∧ (Plugin.register_plugin { plugins := [], tenant_plugins := [] } regArgsNotes 1).1.status
        = "inactive"
      ∧ (Plugin.register_plugin { plugins := [], tenant_plugins := [] } regArgsNotes 1).2.plugins
        = [] ++ [newRegPlugin regArgsNotes 1] :=
  (C8_register_upsert { plugins := [], tenant_plugins := [] } regArgsNotes 1).1 (by decide)

/-- C10 (amended by the negative-usage counterexample):
`get_usage_percentage` never exceeds 100, returns 0 for resource types
without a limit, returns 100 for a non-positive limit, and is
non-negative — hence within 0–100 — whenever the recorded usage is
non-negative; a negative recorded usage produces a negative result. -/
theorem C10_percentage_range_amended (rows : List UsageRow) (t : TenantRec) (rt : String) :
    QuotaManager.get_usage_percentage rows t rt ≤ 100
    ∧ (rt ≠ "users" → rt ≠ "storage_mb" → QuotaManager.get_usage_percentage rows t rt = 0)
    ∧ (rt = "users" → t.max_users ≤ 0 → QuotaManager.get_usage_percentage rows t rt = 100)
    ∧ (rt = "storage_mb" → t.max_storage_mb ≤ 0 →
        QuotaManager.get_usage_percentage rows t rt = 100)
    ∧ (0 ≤ (QuotaManager.get_usage rows t rt).1 →
        0 ≤ QuotaManager.get_usage_percentage rows t rt) := by
  unfold QuotaManager.get_usage_percentage
  by_cases h1 : rt = "users"
  · subst h1
    simp only [beq_self_eq_true, if_pos rfl]
    by_cases h2 : t.max_users ≤ 0
    · rw [if_pos h2]
      refine ⟨le_refl _, ?_, ?_, ?_, ?_⟩
      · intro hne _; exact absurd rfl hne
      · intro _ _; rfl
      · intro he; simp at he
      · intro _; norm_num
    · rw [if_neg h2]
      refine ⟨min_le_right _ _, ?_, ?_, ?_, ?_⟩
      · intro hne _; exact absurd rfl hne
      · intro _ hle; exact absurd hle h2
      · intro he; simp at he
      · intro hu
        refine le_min ?_ (by norm_num)
        exact Int.tdiv_nonneg (by positivity) (le_of_not_le h2)
  · by_cases h3 : rt = "storage_mb"
    · subst h3
      rw [if_neg (by simp), if_pos (by simp)]
      by_cases h2 : t.max_storage_mb ≤ 0
      · rw [if_pos h2]
        refine ⟨le_refl _, ?_, ?_, ?_, ?_⟩
        · intro _ hne; exact absurd rfl hne
        · intro he; simp at he
        · intro _ _; rfl
        · intro _; norm_num
      · rw [if_neg h2]
        refine ⟨min_le_right _ _, ?_, ?_, ?_, ?_⟩
        · intro _ hne; exact absurd rfl hne
        · intro he; simp at he
        · intro _ hle; exact absurd hle h2
        · intro hu
          refine le_min ?_ (by norm_num)
          exact Int.tdiv_nonneg (by positivity) (le_of_not_le h2)
    · rw [if_neg (by simp [h1]), if_neg (by simp [h3])]
      refine ⟨by norm_num, ?_, ?_, ?_, ?_⟩
      · intro _ _; rfl
      · intro he; exact absurd he h1
      · intro he; exact absurd he h3
      · intro _; norm_num

/-- C10, witness: with no usage recorded (usage 0, limit 100) the
percentage is within range. -/
theorem C10_percentage_range_amended_witness :
    QuotaManager.get_usage_percentage [] quotaTenant "users" ≤ 100
      ∧ 0 ≤ QuotaManager.get_usage_percentage [] quotaTenant "users" :=
  ⟨(C10_percentage_range_amended [] quotaTenant "users").1,
    (C10_percentage_range_amended [] quotaTenant "users").2.2.2.2 (by decide)⟩

/-- C7 (amended): outside `/static/` requests, the four tenant sources are
tried in the claimed order — subdomain (which additionally requires more
than two host labels), then custom domain, then path segment, then
(non-empty) query parameter — with the first match winning and the query
source deciding the rest; `/static/` requests always get no tenant. -/
theorem C7_four_sources_amended (tenants : List TenantRec) (req : HttpRequest) :
    (pyStartsWith req.path "/static/" = true →
      identify_tenant tenants req = Option.none)
    ∧ (pyStartsWith req.path "/static/" = false →
      (∀ t, srcSubdomain tenants req = Option.some t →
        identify_tenant tenants req = Option.some t)
      ∧ (srcSubdomain tenants req = Option.none →
        (∀ t, srcDomain tenants req = Option.some t →
          identify_tenant tenants req = Option.some t)
        ∧ (srcDomain tenants req = Option.none →
          (∀ t, srcPath tenants req = Option.some t →
            identify_tenant tenants req = Option.some t)
          ∧ (srcPath tenants req = Option.none →
            identify_tenant tenants req = srcQuery tenants req)))) := by
  constructor
  · intro hs
    unfold identify_tenant
    dsimp only
    rw [hs, if_pos rfl]
  · intro hs
    constructor
    · intro t hsub
      unfold srcSubdomain at hsub
      dsimp only at hsub
      unfold identify_tenant
      dsimp only
      rw [hs, if_neg Bool.false_ne_true, hsub]
    · intro hsubn
      unfold srcSubdomain at hsubn
      dsimp only at hsubn
      constructor
      · intro t hdom
        unfold srcDomain at hdom
        unfold identify_tenant
        dsimp only
        rw [hs, if_neg Bool.false_ne_true, hsubn, hdom]
      · intro hdomn
        unfold srcDomain at hdomn
        constructor
        · intro t hpath
          unfold srcPath at hpath
          dsimp only at hpath
          unfold identify_tenant
          dsimp only
          rw [hs, if_neg Bool.false_ne_true, hsubn, hdomn, hpath]
        · intro hpathn
          unfold srcPath at hpathn
          dsimp only at hpathn
          unfold identify_tenant srcQuery
          dsimp only
          rw [hs, if_neg Bool.false_ne_true, hsubn, hdomn, hpathn]
          cases req.query_tenant with
          | none => rfl
          | some qs =>
            dsimp only
            cases hqb : qs != "" with
            | false => rfl
            | true =>
              cases Tenant.get_tenant_by_slug tenants qs <;> rfl

/-- C7, witness: an ordinary request on the acme subdomain resolves to
the acme tenant through the subdomain source. -/
theorem C7_four_sources_amended_witness :
    identify_tenant [acmeTenant] reqC7 = Option.some acmeTenant :=
  ((C7_four_sources_amended [acmeTenant] reqC7).2 (by decide)).1 acmeTenant (by decide)

/-- C9: under the plugins table's id uniqueness and the association
table's composite pair constraint, `get_tenant_plugins` has no duplicate
plugin ids and contains exactly the active plugins that are
`enabled_for_all` or individually enabled for the tenant. -/
theorem C9_tenant_plugins_union (db : DB) (tid : Nat)
    (hids : (db.plugins.map Plugin.id).Nodup)
    (hU : tpPairsNodup db.tenant_plugins) :
    ((PluginManager.get_tenant_plugins db tid).map Plugin.id).Nodup
    ∧ ∀ p, p ∈ PluginManager.get_tenant_plugins db tid ↔
        (p ∈ db.plugins ∧ p.status = "active"
          ∧ (p.enabled_for_all = true
            ∨ ∃ tp, tp ∈ db.tenant_plugins ∧ tp.tenant_id = tid ∧ tp.enabled = true
                ∧ tp.plugin_id = p.id)) := by
  unfold PluginManager.get_tenant_plugins
  dsimp only
  set sys := db.plugins.filter (fun p => p.status == "active" && p.enabled_for_all) with hsys
  set ids := sys.map (fun p => p.id) with hidsdef
  set jf := (joinedTenantPlugins db tid).filter
    (fun x => !(ids.contains x.1.plugin_id)) with hjf
  constructor
  · rw [List.map_append, List.nodup_append]
    refine ⟨?_, ?_, ?_⟩
    · exact List.Nodup.sublist ((List.filter_sublist _).map _) hids
    · rw [List.map_map]
      have hcong : ∀ x ∈ jf, (Plugin.id ∘ fun x => x.2) x = x.1.plugin_id := by
        intro x hx
        have hxj : x ∈ joinedTenantPlugins db tid := List.mem_of_mem_filter (hjf ▸ hx)
        exact (joined_mem db tid x hxj).2.2.2.2.1
      rw [List.map_congr_left hcong]
      exact List.Nodup.sublist
        ((List.filter_sublist _).map _) (joined_ids_nodup db tid hU)
    · intro a ha hb
      rw [List.map_map, List.mem_map] at hb
      obtain ⟨x, hx, hxa⟩ := hb
      have hxj : x ∈ joinedTenantPlugins db tid := List.mem_of_mem_filter (hjf ▸ hx)
      have hcf := (List.mem_filter.mp (hjf ▸ hx)).2
      have hxid : x.2.id = x.1.plugin_id := (joined_mem db tid x hxj).2.2.2.2.1
      have hmemids : x.1.plugin_id ∈ ids := by
        have hxa2 : x.2.id = a := hxa
        rw [← hxid, hxa2]
        exact ha
      simp [hmemids] at hcf
  · intro p
    constructor
    · intro hp
      rw [List.mem_append] at hp
      cases hp with
      | inl hsysm =>
        rw [hsys, List.mem_filter] at hsysm
        have h2 := hsysm.2
        simp only [Bool.and_eq_true, beq_iff_eq] at h2
        exact ⟨hsysm.1, h2.1, Or.inl h2.2⟩
      | inr hm =>
        rw [List.mem_map] at hm
        obtain ⟨x, hx, hpe⟩ := hm
        have hxj : x ∈ joinedTenantPlugins db tid := List.mem_of_mem_filter (hjf ▸ hx)
        obtain ⟨h1, h2, h3, h4, h5, h6⟩ := joined_mem db tid x hxj
        refine ⟨hpe ▸ h4, hpe ▸ h6, Or.inr ⟨x.1, h1, h2, h3, ?_⟩⟩
        rw [← hpe, ← h5]
    · rintro ⟨hpm, hact, hdisj⟩
      rw [List.mem_append]
      cases hdisj with
      | inl hefa =>
        left
        rw [hsys, List.mem_filter]
        exact ⟨hpm, by simp [hact, hefa]⟩
      | inr hex =>
        obtain ⟨tp, htpm, ht, hen, hpid⟩ := hex
        by_cases hefa : p.enabled_for_all = true
        · left
          rw [hsys, List.mem_filter]
          exact ⟨hpm, by simp [hact, hefa]⟩
        · right
          rw [List.mem_map]
          refine ⟨(tp, p), ?_, rfl⟩
          rw [hjf, List.mem_filter]
          refine ⟨joined_complete db tid p tp hids hpm htpm ht hen hpid hact, ?_⟩
          have hnotin : tp.plugin_id ∉ ids := by
            intro hin
            rw [hidsdef, List.mem_map] at hin
            obtain ⟨q, hq, hqid⟩ := hin
            rw [hsys, List.mem_filter] at hq
            have hq2 := hq.2
            simp only [Bool.and_eq_true, beq_iff_eq] at hq2
            have hqp : q = p :=
              List.inj_on_of_nodup_map hids hq.1 hpm (by rw [hqid, hpid])
            exact hefa (hqp ▸ hq2.2)
          simp [hnotin]

/-- C9, witness: in the concrete two-plugin database, ids are distinct
and the tenant-enabled notes plugin is included. -/
theorem C9_tenant_plugins_union_witness :
    ((PluginManager.get_tenant_plugins dbC9 1).map Plugin.id).Nodup
      ∧ notesRow ∈ PluginManager.get_tenant_plugins dbC9 1 :=
  ⟨(C9_tenant_plugins_union dbC9 1 (by decide) (by decide)).1,
    ((C9_tenant_plugins_union dbC9 1 (by decide) (by decide)).2 notesRow).mpr
      ⟨by decide, rfl, Or.inr ⟨tpRow, by decide, rfl, rfl, rfl⟩⟩⟩

end SaaS
